import Mathlib

/-
Verification of the grid-trading bot's validation, metrics and grid-strategy
code against its natural-language specification.

The embedding models JavaScript numbers as exact rationals (ℚ).  The only
place where this idealisation is visible is division by zero: in ℚ the
convention is q / 0 = 0, while JavaScript produces Infinity or NaN.  Every
such spot is flagged in the doc comment of the definition concerned.

The source method Number(x.toFixed(d)) rounds x to d decimal places picking,
of the two nearest multiples of 10^(-d), the one closer to x and the larger
one on a tie; on exact inputs this is floor(x * 10^d + 1/2) / 10^d, which is
how toFixed below is defined.
-/

/-- Rounding to d decimal places, the embedding of Number(x.toFixed(d)). -/
def toFixed (d : ℕ) (q : ℚ) : ℚ :=
  ((⌊q * 10 ^ d + 1 / 2⌋ : ℤ) : ℚ) / 10 ^ d

/-- Embedding of the template-literal rendering of orderSize.toFixed(2):
decimal string with two fractional digits.  The sign is split off first and
the magnitude rounded, as the ECMAScript toFixed algorithm does. -/
def ratToFixed2 (q : ℚ) : String :=
  let sign := if q < 0 then "-" else ""
  let n : ℤ := ⌊|q| * 100 + 1 / 2⌋
  let whole := n / 100
  let frac := (n % 100).toNat
  sign ++ toString whole ++ "." ++ (if frac < 10 then "0" else "") ++ toString frac

/-- The TradingLimits interface of the validation module. -/
structure TradingLimits where
  minInvestment : ℚ
  minOrderValue : ℚ
  maxGridCount : ℤ
  minGridCount : ℤ
  minProfitPerGrid : ℚ
  maxProfitPerGrid : ℚ

/-- The TRADING_LIMITS constant of the validation module. -/
def TRADING_LIMITS : TradingLimits :=
  { minInvestment := 5
    minOrderValue := 2
    maxGridCount := 50
    minGridCount := 3
    minProfitPerGrid := 0.1
    maxProfitPerGrid := 10 }

/-- The configuration record consumed by the validator and the strategy
(the GridConfig interface; gridCount is an integer per the data model). -/
structure GridConfig where
  symbol : String
  gridCount : ℤ
  upperPrice : ℚ
  lowerPrice : ℚ
  investment : ℚ
  profitPerGrid : ℚ

/-- The ValidationResult interface. -/
structure ValidationResult where
  isValid : Bool
  errors : List String
  warnings : List String

/-- The errors list built by validateGridConfig: one push per violated
blocking check, in source order, none short-circuiting.  The orderSize
division investment / gridCount is exact rational division (at
gridCount = 0 the source's JavaScript float division would give Infinity
or NaN instead of ℚ's 0; such configurations are already rejected by the
grid-count check). -/
def validationErrors (config : GridConfig) : List String :=
  (if config.investment < TRADING_LIMITS.minInvestment then
    ["Minimum investment is $5"] else []) ++
  (if config.gridCount < TRADING_LIMITS.minGridCount then
    ["Minimum grid count is 3"] else []) ++
  (if config.gridCount > TRADING_LIMITS.maxGridCount then
    ["Maximum grid count is 50"] else []) ++
  (if config.upperPrice ≤ config.lowerPrice then
    ["Upper price must be greater than lower price"] else []) ++
  (if config.lowerPrice ≤ 0 then
    ["Lower price must be greater than 0"] else []) ++
  (if config.profitPerGrid < TRADING_LIMITS.minProfitPerGrid then
    ["Minimum profit per grid is 0.1%"] else []) ++
  (if config.profitPerGrid > TRADING_LIMITS.maxProfitPerGrid then
    ["Maximum profit per grid is 10%"] else []) ++
  (if config.investment / (config.gridCount : ℚ) < TRADING_LIMITS.minOrderValue then
    ["Order size ($" ++ ratToFixed2 (config.investment / (config.gridCount : ℚ)) ++
      ") is below minimum $2. Reduce grid count or increase investment."] else [])

/-- The warnings list built by validateGridConfig (non-blocking). -/
def validationWarnings (config : GridConfig) : List String :=
  (if config.gridCount > 20 then
    ["High grid count may result in many small orders"] else []) ++
  (if config.profitPerGrid < 0.5 then
    ["Low profit per grid may result in minimal profits after fees"] else []) ++
  (if (config.upperPrice - config.lowerPrice) / config.lowerPrice * 100 > 50 then
    ["Large price range may require significant price movement to be profitable"] else [])

/-- The validateGridConfig function: isValid is errors.length === 0. -/
def validateGridConfig (config : GridConfig) : ValidationResult :=
  { isValid := (validationErrors config).length == 0
    errors := validationErrors config
    warnings := validationWarnings config }

/-- The record returned by calculateGridMetrics. -/
structure GridMetrics where
  priceStep : ℚ
  orderSize : ℚ
  totalPotentialProfit : ℚ
  priceRange : ℚ
  averagePrice : ℚ

/-- The calculateGridMetrics function.  Total: every field is computed for
every configuration.  The divisions are exact rational division (the
source's float division yields Infinity or NaN at gridCount = 1 or
lowerPrice = 0 where ℚ yields 0). -/
def calculateGridMetrics (config : GridConfig) : GridMetrics :=
  let priceStep := (config.upperPrice - config.lowerPrice) / ((config.gridCount : ℚ) - 1)
  let orderSize := config.investment / (config.gridCount : ℚ)
  let totalPotentialProfit := config.investment * config.profitPerGrid / 100
  let priceRange := (config.upperPrice - config.lowerPrice) / config.lowerPrice * 100
  { priceStep := toFixed 6 priceStep
    orderSize := toFixed 2 orderSize
    totalPotentialProfit := toFixed 2 totalPotentialProfit
    priceRange := toFixed 2 priceRange
    averagePrice := toFixed 2 ((config.upperPrice + config.lowerPrice) / 2) }

/-- The GridLevel interface: a price, optional buy/sell order ids, and a
fill flag. -/
structure GridLevel where
  price : ℚ
  buyOrderId : Option String
  sellOrderId : Option String
  isFilled : Bool
deriving DecidableEq

/-- The order sides accepted by updateGridLevel. -/
inductive OrderType where
  | buy
  | sell
deriving DecidableEq

/-- The epsilon price match used by the level lookups:
Math.abs(l.price - price) < 0.000001. -/
def epsilonMatch (l : GridLevel) (price : ℚ) : Bool :=
  |l.price - price| < 0.000001

/-- The this.gridLevels.find call shared by updateGridLevel and
markLevelFilled: first level matching the price within epsilon. -/
def findLevel (levels : List GridLevel) (price : ℚ) : Option GridLevel :=
  levels.find? (fun l => epsilonMatch l price)

/-- Rewrites the first element satisfying p by f and keeps the rest; this is
the pure rendering of the source's find-then-mutate-in-place idiom. -/
def updateFirst (p : α → Bool) (f : α → α) : List α → List α
  | [] => []
  | x :: xs => if p x then f x :: xs else x :: updateFirst p f xs

/-- The GridTradingStrategy class state: its config, gridLevels and
isActive fields. -/
structure GridTradingStrategy where
  config : GridConfig
  gridLevels : List GridLevel
  isActive : Bool

/-- The initializeGrid method: gridCount levels at
lowerPrice + i * priceStep, each price rounded to 6 decimals.  There is no
guard on gridCount: for gridCount ≤ 0 the loop body never runs and the
layout is empty, and at gridCount = 1 the priceStep division by zero is ℚ's
0 (the source's float division gives Infinity, making the single level's
price NaN); in no case is an error raised. -/
def initializeGrid (config : GridConfig) : List GridLevel :=
  let priceStep := (config.upperPrice - config.lowerPrice) / ((config.gridCount : ℚ) - 1)
  (List.range config.gridCount.toNat).map fun (i : ℕ) =>
    { price := toFixed 6 (config.lowerPrice + (i : ℚ) * priceStep)
      buyOrderId := none
      sellOrderId := none
      isFilled := false }

/-- The constructor: stores the config and runs initializeGrid. -/
def mkStrategy (config : GridConfig) : GridTradingStrategy :=
  { config := config, gridLevels := initializeGrid config, isActive := false }

namespace GridTradingStrategy

/-- The getGridLevels getter. -/
def getGridLevels (s : GridTradingStrategy) : List GridLevel :=
  s.gridLevels

/-- The getOrderSize getter: investment / gridCount (exact division). -/
def getOrderSize (s : GridTradingStrategy) : ℚ :=
  s.config.investment / (s.config.gridCount : ℚ)

/-- The getProfitPrice method: buyPrice * (1 + profitPerGrid / 100). -/
def getProfitPrice (s : GridTradingStrategy) (buyPrice : ℚ) : ℚ :=
  buyPrice * (1 + s.config.profitPerGrid / 100)

/-- The updateGridLevel method: find the first level within epsilon of the
price and set its buy or sell order id; when the find misses, nothing
happens and nothing is signalled. -/
def updateGridLevel (s : GridTradingStrategy) (price : ℚ) (orderId : String)
    (type : OrderType) : GridTradingStrategy :=
  { s with gridLevels :=
      (updateFirst (fun l => epsilonMatch l price)
        (fun l => match type with
          | .buy => { l with buyOrderId := some orderId }
          | .sell => { l with sellOrderId := some orderId })
        s.gridLevels) }

/-- The markLevelFilled method: find the first level within epsilon of the
price and set isFilled to true; a miss is a silent no-op. -/
def markLevelFilled (s : GridTradingStrategy) (price : ℚ) : GridTradingStrategy :=
  { s with gridLevels :=
      (updateFirst (fun l => epsilonMatch l price)
        (fun l => { l with isFilled := true })
        s.gridLevels) }

/-- The getConfig getter. -/
def getConfig (s : GridTradingStrategy) : GridConfig :=
  s.config

/-- The setActive method. -/
def setActive (s : GridTradingStrategy) (active : Bool) : GridTradingStrategy :=
  { s with isActive := active }

/-- The isStrategyActive getter. -/
def isStrategyActive (s : GridTradingStrategy) : Bool :=
  s.isActive

end GridTradingStrategy

/-- The mutating operations of the strategy, as an operation alphabet for
stating invariants over arbitrary call sequences (the getters return
components and by their types leave the state untouched). -/
inductive StrategyOp where
  | update (price : ℚ) (orderId : String) (type : OrderType)
  | markFilled (price : ℚ)
  | setActive (active : Bool)

/-- Interpretation of one mutating call on the strategy state. -/
def applyOp (s : GridTradingStrategy) : StrategyOp → GridTradingStrategy
  | .update price orderId type => s.updateGridLevel price orderId type
  | .markFilled price => s.markLevelFilled price
  | .setActive active => s.setActive active

/-- Interpretation of a sequence of mutating calls, first to last. -/
def applyOps (s : GridTradingStrategy) (ops : List StrategyOp) : GridTradingStrategy :=
  ops.foldl applyOp s

/-- Modelled from the spec: the per-level fill states of the Reconciliation
Engine's state machine (the repository's sources hold only the GridLevel
record with its boolean isFilled; the engine driving the
Empty/BuyOpen/BuyFilled/SellOpen/SellFilled cycle is not among them). -/
inductive FillState where
  | Empty
  | BuyOpen
  | BuyFilled
  | SellOpen
  | SellFilled
deriving DecidableEq

/-- Modelled from the spec: a simulated exchange fill report for one side. -/
inductive FillEvent where
  | buyFill
  | sellFill
deriving DecidableEq

/-- Modelled from the spec: placing the initial buy order arms an Empty
level. -/
def placeBuy : FillState → FillState
  | .Empty => .BuyOpen
  | s => s

/-- Modelled from the spec: the exchange reporting a fill moves an open
order to its filled state. -/
def onFillDetected : FillState → FillState
  | .BuyOpen => .BuyFilled
  | .SellOpen => .SellFilled
  | s => s

/-- Modelled from the spec: on a detected fill the engine issues exactly one
compensating order (sell after a buy fill, buy after a sell fill) and the
level returns to the corresponding open state.  Returns the new state and
the number of compensating orders issued. -/
def emitCompensating : FillState → FillState × ℕ
  | .BuyFilled => (.SellOpen, 1)
  | .SellFilled => (.BuyOpen, 1)
  | s => (s, 0)

/-- Modelled from the spec: processing one simulated fill event on a level:
a buy fill is only meaningful on an open buy, a sell fill on an open sell;
the detected fill is compensated at once. -/
def applyFill (s : FillState) : FillEvent → FillState × ℕ
  | .buyFill => if s = .BuyOpen then emitCompensating (onFillDetected s) else (s, 0)
  | .sellFill => if s = .SellOpen then emitCompensating (onFillDetected s) else (s, 0)

/-- Modelled from the spec: processing a simulated fill sequence, totalling
the compensating orders issued. -/
def runFills (s : FillState) : List FillEvent → FillState × ℕ
  | [] => (s, 0)
  | e :: es =>
    let r := applyFill s e
    let rest := runFills r.1 es
    (rest.1, r.2 + rest.2)

/-- The worked example of the specification: gridCount 3, band 40000..42000,
investment 300, profit 1 percent. -/
def exampleConfig : GridConfig :=
  { symbol := "BTCUSDT", gridCount := 3, upperPrice := 42000, lowerPrice := 40000,
    investment := 300, profitPerGrid := 1 }

/-- The specification's failing example: investment 5 over 3 grids gives an
order size of about 1.67, below the 2 minimum. -/
def specExampleConfig : GridConfig :=
  { symbol := "BTCUSDT", gridCount := 3, upperPrice := 42000, lowerPrice := 40000,
    investment := 5, profitPerGrid := 1 }

/-- A configuration that passes every validation check but whose price band
is so narrow (2e-7 over 3 grids) that rounding to 6 decimals collapses all
level prices to the same value. -/
def badConfig : GridConfig :=
  { symbol := "BTCUSDT", gridCount := 3, upperPrice := 1 + 2 / 10000000, lowerPrice := 1,
    investment := 10, profitPerGrid := 1 }

/-- A degenerate configuration with gridCount 1: the builder's priceStep
divides by zero here. -/
def degenerateConfig : GridConfig :=
  { symbol := "BTCUSDT", gridCount := 1, upperPrice := 2, lowerPrice := 1,
    investment := 10, profitPerGrid := 1 }

/-- A degenerate configuration with gridCount 0. -/
def zeroGridConfig : GridConfig :=
  { symbol := "BTCUSDT", gridCount := 0, upperPrice := 2, lowerPrice := 1,
    investment := 10, profitPerGrid := 1 }

/-- A concrete strategy state with one unfilled level at 40000. -/
def singleLevelStrategy : GridTradingStrategy :=
  { config := exampleConfig
    gridLevels := [{ price := 40000, buyOrderId := none, sellOrderId := none, isFilled := false }]
    isActive := false }

/-- A concrete strategy state whose first level is filled. -/
def filledStrategy : GridTradingStrategy :=
  { config := exampleConfig
    gridLevels :=
      [{ price := 40000, buyOrderId := some "b0", sellOrderId := none, isFilled := true },
       { price := 41000, buyOrderId := none, sellOrderId := none, isFilled := false }]
    isActive := true }

/-
Helper lemmas: rounding, updateFirst, the built grid.
-/

theorem toFixed_eq {d : ℕ} {q : ℚ} (m : ℤ) (h1 : (m : ℚ) ≤ q * 10 ^ d + 1 / 2)
    (h2 : q * 10 ^ d + 1 / 2 < (m : ℚ) + 1) : toFixed d q = (m : ℚ) / 10 ^ d := by
  unfold toFixed
  rw [show ⌊q * 10 ^ d + 1 / 2⌋ = m from Int.floor_eq_iff.mpr ⟨h1, by exact_mod_cast h2⟩]

theorem toFixed_den (d : ℕ) (q : ℚ) : ∃ m : ℤ, toFixed d q = (m : ℚ) / 10 ^ d :=
  ⟨⌊q * 10 ^ d + 1 / 2⌋, rfl⟩

theorem intCast_div_eq_of_abs_lt {d : ℕ} {m k : ℤ}
    (h : |(m : ℚ) / 10 ^ d - (k : ℚ) / 10 ^ d| < 1 / 10 ^ d) :
    (m : ℚ) / 10 ^ d = (k : ℚ) / 10 ^ d := by
  have hpow : (0 : ℚ) < 10 ^ d := by positivity
  rw [div_sub_div_same, abs_div, abs_of_pos hpow, div_lt_div_iff_of_pos_right hpow] at h
  have hmk : |m - k| < 1 := by exact_mod_cast h
  rw [abs_lt] at hmk
  have : m = k := by omega
  rw [this]

theorem toFixed_lt_toFixed {d : ℕ} {a b : ℚ} (h : a * 10 ^ d + 1 ≤ b * 10 ^ d) :
    toFixed d a < toFixed d b := by
  have hpow : (0 : ℚ) < 10 ^ d := by positivity
  unfold toFixed
  rw [div_lt_div_iff_of_pos_right hpow]
  have hfl : ⌊a * 10 ^ d + 1 / 2⌋ + 1 ≤ ⌊b * 10 ^ d + 1 / 2⌋ := by
    have : ⌊a * 10 ^ d + 1 / 2 + 1⌋ ≤ ⌊b * 10 ^ d + 1 / 2⌋ := Int.floor_mono (by linarith)
    rw [show a * 10 ^ d + 1 / 2 + 1 = a * 10 ^ d + 1 / 2 + (1 : ℤ) by push_cast; ring,
      Int.floor_add_int] at this
    omega
  exact_mod_cast hfl

theorem updateFirst_length (p : α → Bool) (f : α → α) (xs : List α) :
    (updateFirst p f xs).length = xs.length := by
  induction xs with
  | nil => rfl
  | cons x xs ih =>
    unfold updateFirst
    by_cases h : p x <;> simp [h, ih]

theorem updateFirst_map_eq (p : α → Bool) (f : α → α) (g : α → β)
    (hf : ∀ a, g (f a) = g a) (xs : List α) :
    (updateFirst p f xs).map g = xs.map g := by
  induction xs with
  | nil => rfl
  | cons x xs ih =>
    unfold updateFirst
    by_cases h : p x <;> simp [h, ih, hf]

theorem updateFirst_eq_of_not_match (p : α → Bool) (f : α → α) (xs : List α)
    (h : ∀ a ∈ xs, p a = false) : updateFirst p f xs = xs := by
  induction xs with
  | nil => rfl
  | cons x xs ih =>
    unfold updateFirst
    rw [h x (by simp), ih fun a ha => h a (by simp [ha])]
    simp

theorem find?_eq_none_of_not_match (p : α → Bool) (xs : List α)
    (h : ∀ a ∈ xs, p a = false) : xs.find? p = none := by
  induction xs with
  | nil => rfl
  | cons x xs ih =>
    rw [List.find?_cons, h x (by simp), ih fun a ha => h a (by simp [ha])]

theorem updateFirst_getElem? (p : α → Bool) (f : α → α) (xs : List α) (i : ℕ) :
    (updateFirst p f xs)[i]? = xs[i]? ∨
      ∃ a, xs[i]? = some a ∧ (updateFirst p f xs)[i]? = some (f a) := by
  induction xs generalizing i with
  | nil => exact Or.inl rfl
  | cons x xs ih =>
    unfold updateFirst
    by_cases h : p x
    · simp only [h, if_true]
      cases i with
      | zero => exact Or.inr ⟨x, by simp, by simp⟩
      | succ j => simp
    · simp only [h, if_false]
      cases i with
      | zero => simp
      | succ j => simpa using ih j

theorem initializeGrid_length (config : GridConfig) :
    (initializeGrid config).length = config.gridCount.toNat := by
  simp only [initializeGrid, List.length_map, List.length_range]

theorem initializeGrid_getElem (config : GridConfig) (i : ℕ)
    (h : i < (initializeGrid config).length) :
    (initializeGrid config)[i] =
      { price := toFixed 6 (config.lowerPrice + (i : ℚ) *
          ((config.upperPrice - config.lowerPrice) / ((config.gridCount : ℚ) - 1)))
        buyOrderId := none
        sellOrderId := none
        isFilled := false } := by
  simp only [initializeGrid, List.getElem_map, List.getElem_range]

theorem mem_initializeGrid {config : GridConfig} {l : GridLevel}
    (h : l ∈ initializeGrid config) :
    l.buyOrderId = none ∧ l.sellOrderId = none ∧ l.isFilled = false ∧
      ∃ m : ℤ, l.price = (m : ℚ) / 10 ^ 6 := by
  simp only [initializeGrid, List.mem_map, List.mem_range] at h
  obtain ⟨i, _, rfl⟩ := h
  exact ⟨rfl, rfl, rfl, toFixed_den 6 _⟩

theorem toFixed_eq_self {d : ℕ} {q : ℚ} (m : ℤ) (hm : q * 10 ^ d = (m : ℚ)) :
    toFixed d q = q := by
  have hpow : ((10 : ℚ) ^ d) ≠ 0 := by positivity
  unfold toFixed
  rw [hm, add_comm, Int.floor_add_int,
    show ⌊(1 / 2 : ℚ)⌋ = 0 from (Int.floor_eq_iff (z := 0)).mpr (by norm_num), zero_add,
    div_eq_iff hpow]
  exact hm.symm

theorem find?_eq_some_of_unique {p : α → Bool} {a : α} :
    ∀ xs : List α, (∃ x ∈ xs, p x = true) → (∀ x ∈ xs, p x = true → x = a) →
      xs.find? p = some a
  | [], h, _ => by simp at h
  | x :: xs, h, huniq => by
    rw [List.find?_cons]
    cases hx : p x with
    | true => rw [huniq x (by simp) hx]
    | false =>
      apply find?_eq_some_of_unique xs
      · obtain ⟨y, hy, hpy⟩ := h
        rcases List.mem_cons.mp hy with rfl | hy'
        · rw [hx] at hpy; exact absurd hpy (by simp)
        · exact ⟨y, hy', hpy⟩
      · exact fun y hy hpy => huniq y (by simp [hy]) hpy

theorem epsilon_eq {x y : GridLevel}
    (hx : ∃ m : ℤ, x.price = (m : ℚ) / 10 ^ 6) (hy : ∃ m : ℤ, y.price = (m : ℚ) / 10 ^ 6)
    (h : epsilonMatch x y.price = true) : x.price = y.price := by
  obtain ⟨m, hm⟩ := hx
  obtain ⟨k, hk⟩ := hy
  rw [hm, hk]
  refine intCast_div_eq_of_abs_lt ?_
  have h' : |x.price - y.price| < 0.000001 := by simpa [epsilonMatch] using h
  rw [hm, hk] at h'
  calc |(m : ℚ) / 10 ^ 6 - (k : ℚ) / 10 ^ 6| < 0.000001 := h'
    _ = 1 / 10 ^ 6 := by norm_num

theorem exampleConfig_isValid : (validateGridConfig exampleConfig).isValid = true := by
  norm_num [validateGridConfig, validationErrors, TRADING_LIMITS, exampleConfig]

theorem initializeGrid_example : initializeGrid exampleConfig =
    [{ price := 40000, buyOrderId := none, sellOrderId := none, isFilled := false },
     { price := 41000, buyOrderId := none, sellOrderId := none, isFilled := false },
     { price := 42000, buyOrderId := none, sellOrderId := none, isFilled := false }] := by
  have h3 : List.range (Int.toNat 3) = [0, 1, 2] := rfl
  simp only [initializeGrid, exampleConfig, h3, List.map_cons, List.map_nil]
  norm_num [GridLevel.mk.injEq]
  exact ⟨toFixed_eq_self 40000000000 (by norm_num), toFixed_eq_self 41000000000 (by norm_num),
    toFixed_eq_self 42000000000 (by norm_num)⟩

/-- Claim C1: validateGridConfig returns isValid exactly when all blocking
checks hold (investment at least 5, gridCount in 3..50, upperPrice above
lowerPrice, lowerPrice positive, profitPerGrid in 0.1..10, and orderSize
investment/gridCount at least 2); isValid always equals the errors list
being empty; every violated check contributes its own error without
short-circuiting, so the error count is the number of violated limits.
The specification's example (investment 5 over 3 grids) fails with exactly
the order-size error. -/
theorem validateGridConfig_characterization :
    (∀ config : GridConfig,
      ((validateGridConfig config).isValid = true ↔
        5 ≤ config.investment ∧ 3 ≤ config.gridCount ∧ config.gridCount ≤ 50 ∧
        config.lowerPrice < config.upperPrice ∧ 0 < config.lowerPrice ∧
        (0.1 : ℚ) ≤ config.profitPerGrid ∧ config.profitPerGrid ≤ 10 ∧
        2 ≤ config.investment / (config.gridCount : ℚ)) ∧
      ((validateGridConfig config).isValid = true ↔ (validateGridConfig config).errors = []) ∧
      ((validateGridConfig config).errors.length =
        (if config.investment < 5 then 1 else 0) + (if config.gridCount < 3 then 1 else 0) +
        (if 50 < config.gridCount then 1 else 0) +
        (if config.upperPrice ≤ config.lowerPrice then 1 else 0) +
        (if config.lowerPrice ≤ 0 then 1 else 0) +
        (if config.profitPerGrid < (0.1 : ℚ) then 1 else 0) +
        (if 10 < config.profitPerGrid then 1 else 0) +
        (if config.investment / (config.gridCount : ℚ) < 2 then 1 else 0))) ∧
    (validateGridConfig specExampleConfig).isValid = false ∧
    (validateGridConfig specExampleConfig).errors =
      ["Order size ($1.67) is below minimum $2. Reduce grid count or increase investment."] := by
  refine ⟨fun config => ⟨?_, ?_, ?_⟩, ?_, ?_⟩
  · simp [validateGridConfig, validationErrors, TRADING_LIMITS, List.append_eq_nil,
      not_lt, not_le]
  · simp [validateGridConfig]
  · simp only [validateGridConfig, validationErrors, TRADING_LIMITS, gt_iff_lt]
    split_ifs <;> simp
  · norm_num [validateGridConfig, validationErrors, TRADING_LIMITS, specExampleConfig]
  · have habs : |(5 / 3 : ℚ)| = 5 / 3 := abs_of_pos (by norm_num)
    have hfl : ⌊|(5 / 3 : ℚ)| * 100 + 1 / 2⌋ = 167 := by
      rw [habs]
      exact (Int.floor_eq_iff (z := 167)).mpr (by norm_num)
    norm_num [validateGridConfig, validationErrors, TRADING_LIMITS, specExampleConfig,
      ratToFixed2, hfl]
    rfl

/-- Claim C3: getProfitPrice returns buyPrice times (1 + profitPerGrid/100)
for every buy fill price; on the worked example configuration the levels
are 40000, 41000, 42000, the order size is 100, and a buy fill at 41000
yields a sell target of 41410. -/
theorem getProfitPrice_formula_and_example :
    (∀ (s : GridTradingStrategy) (buyPrice : ℚ),
      s.getProfitPrice buyPrice = buyPrice * (1 + s.config.profitPerGrid / 100)) ∧
    (initializeGrid exampleConfig).map GridLevel.price = [40000, 41000, 42000] ∧
    (mkStrategy exampleConfig).getOrderSize = 100 ∧
    (mkStrategy exampleConfig).getProfitPrice 41000 = 41410 := by
  refine ⟨fun s p => rfl, ?_, ?_, ?_⟩
  · rw [initializeGrid_example]
    rfl
  · norm_num [mkStrategy, GridTradingStrategy.getOrderSize, exampleConfig]
  · norm_num [mkStrategy, GridTradingStrategy.getProfitPrice, exampleConfig]

/-- Claim C4: the per-level cycle Empty to BuyOpen to BuyFilled to SellOpen
to SellFilled and back to BuyOpen: a level starting Empty is armed to
BuyOpen by the initial buy, and the simulated fill sequence of a buy fill
followed by a sell fill ends in BuyOpen with exactly two compensating
orders issued in total (one sell after the buy fill, one buy after the
sell fill), the level then holding its third order, a re-armed buy. -/
theorem fill_cycle_two_compensating_orders :
    placeBuy .Empty = .BuyOpen ∧
    onFillDetected .BuyOpen = .BuyFilled ∧ emitCompensating .BuyFilled = (.SellOpen, 1) ∧
    onFillDetected .SellOpen = .SellFilled ∧ emitCompensating .SellFilled = (.BuyOpen, 1) ∧
    applyFill .BuyOpen .buyFill = (.SellOpen, 1) ∧
    applyFill .SellOpen .sellFill = (.BuyOpen, 1) ∧
    runFills (placeBuy .Empty) [.buyFill, .sellFill] = (.BuyOpen, 2) := by
  decide

/-- Claim C6 evaluation: initializeGrid never fails and never raises an
InvalidConfiguration error; for every configuration, including every
gridCount below 2, it simply builds max(gridCount, 0) levels: one level at
gridCount 1 (where its priceStep divides by zero) and an empty layout at
gridCount 0. -/
theorem initializeGrid_no_guard :
    (∀ config : GridConfig, (initializeGrid config).length = config.gridCount.toNat) ∧
    (initializeGrid degenerateConfig).length = 1 ∧
    (initializeGrid degenerateConfig).map GridLevel.price = [1] ∧
    (initializeGrid zeroGridConfig).length = 0 := by
  refine ⟨initializeGrid_length, ?_, ?_, ?_⟩
  · rw [initializeGrid_length]
    rfl
  · have h1 : List.range (Int.toNat 1) = [0] := rfl
    simp only [initializeGrid, degenerateConfig, h1, List.map_cons, List.map_nil]
    norm_num
    exact toFixed_eq_self 1000000 (by norm_num)
  · rw [initializeGrid_length]
    rfl

/-- Claim C7: calculateGridMetrics is total over all configurations, valid
or not, and returns priceStep, orderSize, totalPotentialProfit, priceRange
and averagePrice by the stated formulas, rounded to 6 decimals for the
price step and 2 for the rest; on the worked example it yields priceStep
1000, orderSize 100, totalPotentialProfit 3, priceRange 5 and averagePrice
41000. -/
theorem calculateGridMetrics_formulas :
    (∀ config : GridConfig,
      calculateGridMetrics config =
        { priceStep :=
            toFixed 6 ((config.upperPrice - config.lowerPrice) / ((config.gridCount : ℚ) - 1))
          orderSize := toFixed 2 (config.investment / (config.gridCount : ℚ))
          totalPotentialProfit := toFixed 2 (config.investment * config.profitPerGrid / 100)
          priceRange :=
            toFixed 2 ((config.upperPrice - config.lowerPrice) / config.lowerPrice * 100)
          averagePrice := toFixed 2 ((config.upperPrice + config.lowerPrice) / 2) }) ∧
    calculateGridMetrics exampleConfig =
      { priceStep := 1000, orderSize := 100, totalPotentialProfit := 3, priceRange := 5,
        averagePrice := 41000 } := by
  refine ⟨fun config => rfl, ?_⟩
  norm_num [calculateGridMetrics, exampleConfig, GridMetrics.mk.injEq]
  exact ⟨toFixed_eq_self 1000000000 (by norm_num), toFixed_eq_self 10000 (by norm_num),
    toFixed_eq_self 300 (by norm_num), toFixed_eq_self 500 (by norm_num),
    toFixed_eq_self 4100000 (by norm_num)⟩

theorem isValid_gridCount_ge {config : GridConfig}
    (hv : (validateGridConfig config).isValid = true) : 3 ≤ config.gridCount := by
  simp [validateGridConfig, validationErrors, TRADING_LIMITS, List.append_eq_nil,
    not_lt, not_le] at hv
  exact hv.2.1

/-- Claim C2 (amended): for every valid configuration the builder produces
exactly gridCount levels and the i-th price is lowerPrice + i * priceStep
rounded to 6 decimals, priceStep being (upperPrice - lowerPrice) /
(gridCount - 1); the prices are strictly increasing provided priceStep is
at least 1e-6 (one rounding quantum) -- without that proviso rounding can
collapse neighbouring prices, see the counterexample. -/
theorem initializeGrid_layout_amended (config : GridConfig)
    (hv : (validateGridConfig config).isValid = true) :
    ((initializeGrid config).length : ℤ) = config.gridCount ∧
    (∀ (i : ℕ) (l : GridLevel), (initializeGrid config)[i]? = some l →
      l.price = toFixed 6 (config.lowerPrice + (i : ℚ) *
        ((config.upperPrice - config.lowerPrice) / ((config.gridCount : ℚ) - 1)))) ∧
    ((1 : ℚ) / 1000000 ≤
        (config.upperPrice - config.lowerPrice) / ((config.gridCount : ℚ) - 1) →
      List.Pairwise (· < ·) ((initializeGrid config).map GridLevel.price)) := by
  refine ⟨?_, ?_, ?_⟩
  · rw [initializeGrid_length]
    have h3 := isValid_gridCount_ge hv
    exact Int.toNat_of_nonneg (by omega)
  · intro i l hl
    obtain ⟨hi, hget⟩ := List.getElem?_eq_some.mp hl
    rw [← hget, initializeGrid_getElem]
  · intro hstep6
    set step := (config.upperPrice - config.lowerPrice) / ((config.gridCount : ℚ) - 1)
      with hstepdef
    have hmap : (initializeGrid config).map GridLevel.price =
        (List.range config.gridCount.toNat).map
          (fun (i : ℕ) => toFixed 6 (config.lowerPrice + (i : ℚ) * step)) := by
      simp [initializeGrid, List.map_map]
    rw [hmap]
    have hstep' : (1 : ℚ) ≤ step * 1000000 := by
      rw [div_le_iff₀ (by norm_num : (0 : ℚ) < 1000000)] at hstep6
      linarith
    have hmono : ∀ a b : ℕ, a < b →
        toFixed 6 (config.lowerPrice + (a : ℚ) * step) <
          toFixed 6 (config.lowerPrice + (b : ℚ) * step) := by
      intro a b hab
      apply toFixed_lt_toFixed
      have hba : (1 : ℚ) ≤ (b : ℚ) - (a : ℚ) := by
        have : (a : ℚ) + 1 ≤ (b : ℚ) := by exact_mod_cast Nat.succ_le_of_lt hab
        linarith
      have hprod : (1 : ℚ) * 1 ≤ ((b : ℚ) - (a : ℚ)) * (step * 1000000) :=
        mul_le_mul hba hstep' zero_le_one (by linarith)
      have h10 : ((10 : ℚ) ^ (6 : ℕ)) = 1000000 := by norm_num
      rw [h10]
      nlinarith [hprod]
    exact List.Pairwise.map _ (fun a b h => hmono a b h) (List.pairwise_lt_range _)

/-- Claim C2 witness: the worked example configuration is valid, its
priceStep 1000 clears the 1e-6 proviso, and its built prices are strictly
increasing. -/
theorem initializeGrid_layout_amended_witness :
    (validateGridConfig exampleConfig).isValid = true ∧
    (1 : ℚ) / 1000000 ≤
      (exampleConfig.upperPrice - exampleConfig.lowerPrice) /
        ((exampleConfig.gridCount : ℚ) - 1) ∧
    ((initializeGrid exampleConfig).length : ℤ) = exampleConfig.gridCount ∧
    List.Pairwise (· < ·) ((initializeGrid exampleConfig).map GridLevel.price) := by
  have hstep : (1 : ℚ) / 1000000 ≤
      (exampleConfig.upperPrice - exampleConfig.lowerPrice) /
        ((exampleConfig.gridCount : ℚ) - 1) := by
    norm_num [exampleConfig]
  exact ⟨exampleConfig_isValid, hstep,
    (initializeGrid_layout_amended exampleConfig exampleConfig_isValid).1,
    (initializeGrid_layout_amended exampleConfig exampleConfig_isValid).2.2 hstep⟩

/-- Claim C2 counterexample: the configuration with band 1 .. 1 + 2e-7 over
3 grids passes every validation check, yet rounding to 6 decimals collapses
all three level prices to 1, so the built prices are not strictly
increasing. -/
theorem initializeGrid_strict_mono_counterexample :
    (validateGridConfig badConfig).isValid = true ∧
    (initializeGrid badConfig).map GridLevel.price = [1, 1, 1] ∧
    ¬ List.Pairwise (· < ·) ((initializeGrid badConfig).map GridLevel.price) := by
  have hprices : (initializeGrid badConfig).map GridLevel.price = [1, 1, 1] := by
    have h3 : List.range (Int.toNat 3) = [0, 1, 2] := rfl
    simp only [initializeGrid, badConfig, List.map_map, h3, List.map_cons, List.map_nil,
      Function.comp]
    norm_num
    refine ⟨toFixed_eq_self 1000000 (by norm_num), ?_, ?_⟩
    · rw [toFixed_eq (q := 10000001 / 10000000) 1000000 (by norm_num) (by norm_num)]
      norm_num
    · rw [toFixed_eq (q := 5000001 / 5000000) 1000000 (by norm_num) (by norm_num)]
      norm_num
  refine ⟨?_, hprices, ?_⟩
  · norm_num [validateGridConfig, validationErrors, TRADING_LIMITS, badConfig]
  · rw [hprices]
    simp [List.pairwise_cons]

/-- Claim C5: after building the layout of a valid configuration, looking
up any built level by that level's own price with the 1e-6 epsilon match
finds that same level (rounded prices are multiples of 1e-6, so the epsilon
match cannot confuse two distinct rounded prices, and freshly built levels
of equal price are equal). -/
theorem findLevel_roundtrip (config : GridConfig)
    (hv : (validateGridConfig config).isValid = true) (i : ℕ) (l : GridLevel)
    (hl : (initializeGrid config)[i]? = some l) :
    findLevel (initializeGrid config) l.price = some l := by
  have h3 := isValid_gridCount_ge hv
  have hmem : l ∈ initializeGrid config := List.getElem?_mem hl
  obtain ⟨hb, hs, hf, hp⟩ := mem_initializeGrid hmem
  unfold findLevel
  apply find?_eq_some_of_unique
  · refine ⟨l, hmem, ?_⟩
    simp only [epsilonMatch, sub_self, abs_zero, decide_eq_true_eq]
    norm_num
  · intro x hx hpx
    obtain ⟨hb', hs', hf', hp'⟩ := mem_initializeGrid hx
    have hprice : x.price = l.price := epsilon_eq hp' hp hpx
    cases x
    cases l
    simp_all

/-- Claim C5 witness: in the worked example layout, looking up the middle
level by its own price 41000 returns exactly that level. -/
theorem findLevel_roundtrip_witness :
    (validateGridConfig exampleConfig).isValid = true ∧
    (initializeGrid exampleConfig)[1]? =
      some { price := 41000, buyOrderId := none, sellOrderId := none, isFilled := false } ∧
    findLevel (initializeGrid exampleConfig) 41000 =
      some { price := 41000, buyOrderId := none, sellOrderId := none, isFilled := false } := by
  have h1 : (initializeGrid exampleConfig)[1]? =
      some { price := 41000, buyOrderId := none, sellOrderId := none, isFilled := false } := by
    rw [initializeGrid_example]
    simp
  exact ⟨exampleConfig_isValid, h1,
    findLevel_roundtrip exampleConfig exampleConfig_isValid 1
      { price := 41000, buyOrderId := none, sellOrderId := none, isFilled := false } h1⟩

/-- Claim C8: the mutating store operations updateGridLevel and
markLevelFilled preserve the number of levels and every level's price (the
price list is unchanged, hence so is its length and each entry), and leave
the configuration untouched; only order references and fill state can
change, as those are the only other level fields. -/
theorem store_ops_frame :
    ∀ (s : GridTradingStrategy) (price : ℚ) (orderId : String) (type : OrderType),
      (s.updateGridLevel price orderId type).gridLevels.length = s.gridLevels.length ∧
      (s.markLevelFilled price).gridLevels.length = s.gridLevels.length ∧
      (s.updateGridLevel price orderId type).gridLevels.map GridLevel.price =
        s.gridLevels.map GridLevel.price ∧
      (s.markLevelFilled price).gridLevels.map GridLevel.price =
        s.gridLevels.map GridLevel.price ∧
      (s.updateGridLevel price orderId type).config = s.config ∧
      (s.markLevelFilled price).config = s.config := by
  intro s price orderId type
  refine ⟨updateFirst_length _ _ _, updateFirst_length _ _ _, ?_, ?_, rfl, rfl⟩
  · exact updateFirst_map_eq _ _ _ (fun a => by cases type <;> rfl) _
  · exact updateFirst_map_eq (fun l => epsilonMatch l price)
      (fun l => { l with isFilled := true }) GridLevel.price (fun a => rfl) s.gridLevels

/-- Claim C9: when the given price matches no level within the 1e-6
epsilon, updateGridLevel and markLevelFilled return the state completely
unchanged and the underlying find comes back empty; no error of any kind is
signalled (the operations cannot fail by their type). -/
theorem unmatched_update_noop :
    ∀ (s : GridTradingStrategy) (price : ℚ) (orderId : String) (type : OrderType),
      (∀ l ∈ s.gridLevels, ¬(|l.price - price| < (0.000001 : ℚ))) →
      s.updateGridLevel price orderId type = s ∧ s.markLevelFilled price = s ∧
        findLevel s.gridLevels price = none := by
  intro s price orderId type h
  have hb : ∀ l ∈ s.gridLevels, epsilonMatch l price = false := by
    intro l hl
    simpa [epsilonMatch] using h l hl
  refine ⟨?_, ?_, find?_eq_none_of_not_match _ _ hb⟩
  · show { s with gridLevels := _ } = s
    rw [updateFirst_eq_of_not_match _ _ _ hb]
  · show { s with gridLevels := _ } = s
    rw [updateFirst_eq_of_not_match _ _ _ hb]

/-- Claim C9 witness: on a one-level store at price 40000, an update and a
fill mark at 50000 match nothing and change nothing. -/
theorem unmatched_update_noop_witness :
    (∀ l ∈ singleLevelStrategy.gridLevels, ¬(|l.price - (50000 : ℚ)| < (0.000001 : ℚ))) ∧
    singleLevelStrategy.updateGridLevel 50000 "o9" .buy = singleLevelStrategy ∧
    singleLevelStrategy.markLevelFilled 50000 = singleLevelStrategy ∧
    findLevel singleLevelStrategy.gridLevels 50000 = none := by
  have hno : ∀ l ∈ singleLevelStrategy.gridLevels,
      ¬(|l.price - (50000 : ℚ)| < (0.000001 : ℚ)) := by
    intro l hl
    simp only [singleLevelStrategy, List.mem_singleton] at hl
    subst hl
    rw [show (40000 : ℚ) - 50000 = -10000 by norm_num, abs_neg,
      abs_of_pos (by norm_num : (0 : ℚ) < 10000)]
    norm_num
  obtain ⟨h1, h2, h3⟩ := unmatched_update_noop singleLevelStrategy 50000 "o9" .buy hno
  exact ⟨hno, h1, h2, h3⟩

theorem applyOp_isFilled_mono (s : GridTradingStrategy) (op : StrategyOp) (i : ℕ)
    (h : (s.gridLevels[i]?).map GridLevel.isFilled = some true) :
    (((applyOp s op).gridLevels[i]?).map GridLevel.isFilled) = some true := by
  cases op with
  | update price orderId type =>
    have hmap : (s.updateGridLevel price orderId type).gridLevels.map GridLevel.isFilled =
        s.gridLevels.map GridLevel.isFilled :=
      updateFirst_map_eq _ _ _ (fun a => by cases type <;> rfl) _
    calc ((applyOp s (.update price orderId type)).gridLevels[i]?).map GridLevel.isFilled
        = ((s.updateGridLevel price orderId type).gridLevels.map GridLevel.isFilled)[i]? :=
          (List.getElem?_map _ _ _).symm
      _ = (s.gridLevels.map GridLevel.isFilled)[i]? := by rw [hmap]
      _ = (s.gridLevels[i]?).map GridLevel.isFilled := List.getElem?_map _ _ _
      _ = some true := h
  | markFilled price =>
    show (((updateFirst (fun l => epsilonMatch l price)
        (fun l => { l with isFilled := true }) s.gridLevels)[i]?).map GridLevel.isFilled)
      = some true
    rcases updateFirst_getElem? (fun l => epsilonMatch l price)
        (fun l => { l with isFilled := true }) s.gridLevels i with heq | ⟨a, ha, ha'⟩
    · rw [heq]
      exact h
    · rw [ha']
      rfl
  | setActive active => exact h

/-- Claim C10: a level's fill state is monotone: if a level is filled, then
after any sequence of the strategy's mutating operations (updateGridLevel,
markLevelFilled, setActive) it is still filled -- markLevelFilled only ever
sets the flag to true and no operation resets it (the getters return
components and cannot mutate at all). -/
theorem isFilled_monotone :
    ∀ (ops : List StrategyOp) (s : GridTradingStrategy) (i : ℕ),
      (s.gridLevels[i]?).map GridLevel.isFilled = some true →
      ((applyOps s ops).gridLevels[i]?).map GridLevel.isFilled = some true
  | [], _, _, h => h
  | op :: ops, s, i, h =>
    isFilled_monotone ops (applyOp s op) i (applyOp_isFilled_mono s op i h)

/-- Claim C10 witness: a strategy whose first level is filled keeps it
filled across a markLevelFilled, an updateGridLevel and a setActive call. -/
theorem isFilled_monotone_witness :
    ((filledStrategy.gridLevels[0]?).map GridLevel.isFilled = some true) ∧
    (((applyOps filledStrategy
        [.markFilled 41000, .update 40000 "o1" .buy, .setActive false]).gridLevels[0]?).map
      GridLevel.isFilled = some true) :=
  ⟨rfl, isFilled_monotone [.markFilled 41000, .update 40000 "o1" .buy, .setActive false]
    filledStrategy 0 rfl⟩
